import Mathlib

/-!
Shallow embedding of the mental-health RAG chatbot repository
(`agent.py`, `server.py`) and verification of its specification claims.

The CLI agent (`MentalHealthAgent` in `agent.py`) keeps a conversation
history, a current session id and a knowledge base; its `process_message`
short-circuits blank input, otherwise appends a user turn, assembles a
conversation context, calls the RAG system and appends the assistant turn.
The HTTP server (`server.py`) keeps a dictionary of sessions and exposes
chat / get-session / delete-session endpoints.

Wall-clock reads (`datetime.now()` / `time.time()`) are modelled by a
clock function `nowFn : Nat → Nat` applied to a per-state counter of how
many clock reads have happened so far; each read bumps the counter.  The
external RAG pipeline (`rag.py`, whose source is not part of the
repository) is passed in as a function argument where the shells call it,
and is additionally modelled from the spec further below for the claims
that are about its internals.
-/

namespace MentalHealthBot

/-- A conversation turn as stored by `MentalHealthAgent._add_to_history`:
a dict with keys `role`, `message`, `timestamp`, `session_id`. -/
structure Turn where
  role : String
  message : String
  timestamp : Nat
  session_id : Option String
deriving DecidableEq

/-- Result dictionary returned by `MentalHealthRAG.generate_response`,
as consumed by the shells: keys `response` and `is_mental_health`. -/
structure GenResult where
  response : String
  is_mental_health : Bool
deriving DecidableEq

/-- State of `MentalHealthAgent`: `conversation_history`,
`current_session_id`, the texts held by the RAG system's knowledge base,
and the clock-read counter. -/
structure AgentState where
  conversation_history : List Turn
  current_session_id : Option String
  knowledge : List String
  clock : Nat
deriving DecidableEq

/-- `MentalHealthAgent._add_to_history`: records `datetime.now()` as the
timestamp and appends a turn carrying the current session id. -/
def addToHistory (nowFn : Nat → Nat) (s : AgentState) (role message : String) : AgentState :=
  { s with
    conversation_history :=
      s.conversation_history ++ [⟨role, message, nowFn s.clock, s.current_session_id⟩],
    clock := s.clock + 1 }

/-- Python list slice `l[-n:]`: the last `n` elements, except that `-0`
is `0`, so `l[-0:]` is the whole list. -/
def pySliceLast (n : Nat) (l : List α) : List α :=
  if n = 0 then l else l.drop (l.length - n)

/-- The filter `msg['role'] in ['user', 'assistant']` used by
`_get_conversation_context`. -/
def userOrAssistant (t : Turn) : Bool :=
  t.role == "user" || t.role == "assistant"

/-- The turns that `_get_conversation_context` includes: the last
`maxMessages` turns (Python slice), then filtered to user/assistant. -/
def contextTurns (history : List Turn) (maxMessages : Nat) : List Turn :=
  (pySliceLast maxMessages history).filter userOrAssistant

/-- One line of the context:
`f"{speaker}: {msg['message']}\n"` with speaker `USER` / `ASSISTANT`. -/
def renderTurn (t : Turn) : String :=
  (if t.role = "user" then "USER" else "ASSISTANT") ++ ": " ++ t.message ++ "\n"

/-- `MentalHealthAgent._get_conversation_context`: empty string for an
empty history, else a header line followed by the rendered turns. -/
def getConversationContext (history : List Turn) (maxMessages : Nat) : String :=
  if history.isEmpty then ""
  else
    "Recent conversation context:\n" ++
      String.join ((contextTurns history maxMessages).map renderTurn)

/-- Fixed reply of `process_message` to blank input. -/
def blankInputReply : String := "Please type something to chat with me."

/-- The guard `not user_input.strip()` of `process_message`: the stripped
string is empty exactly when every character is whitespace. -/
def isBlank (s : String) : Bool := s.data.all Char.isWhitespace

/-- `MentalHealthAgent.process_message`: blank input short-circuits with a
fixed reply; otherwise append the user turn, build the contextual query,
call the RAG system (`gen`), append the assistant turn, return the
response.  The wall-clock reads taken for `response_time` do not affect
the returned text or state and are omitted. -/
def processMessage (nowFn : Nat → Nat) (gen : String → GenResult) (s : AgentState)
    (userInput : String) : String × AgentState :=
  if isBlank userInput then
    (blankInputReply, s)
  else
    let s1 := addToHistory nowFn s "user" userInput
    let ctx := getConversationContext s1.conversation_history 10
    let contextualQuery :=
      if ctx = "" then userInput else ctx ++ "\nCurrent query: " ++ userInput
    let rd := gen contextualQuery
    let s2 := addToHistory nowFn s1 "assistant" rd.response
    (rd.response, s2)

/-- `MentalHealthAgent.clear_history`: resets the history list only. -/
def clearHistory (s : AgentState) : AgentState :=
  { s with conversation_history := [] }

/-- Greeting recorded as a system turn by `start_new_chat`. -/
def greetingMessage : String :=
  "Hi there! I'm your mental health assistant. How can I support you today?"

/-- `MentalHealthAgent.start_new_chat`: assigns
`session_{int(time.time())}`, empties the history, and records the
greeting as a system turn. -/
def startNewChat (nowFn : Nat → Nat) (epochTime : Nat) (s : AgentState) : AgentState :=
  addToHistory nowFn
    { s with
      current_session_id := some ("session_" ++ toString epochTime),
      conversation_history := [] }
    "system" greetingMessage

/-- A message inside a server session: a dict with keys `role`,
`message`, `timestamp` (`server.py`, chat endpoint). -/
structure Msg where
  role : String
  message : String
  timestamp : Nat
deriving DecidableEq

/-- A server session value: `{"created_at": ..., "messages": [...]}`. -/
structure Session where
  created_at : Nat
  messages : List Msg
deriving DecidableEq

/-- State of `MentalHealthServer`: the `self.sessions` dict (association
list with unique keys, insertion order) and the clock-read counter. -/
structure ServerState where
  sessions : List (String × Session)
  clock : Nat
deriving DecidableEq

/-- Dictionary lookup `self.sessions[session_id]`
(also the membership test `session_id in self.sessions`). -/
def lookupSession (ss : List (String × Session)) (id : String) : Option Session :=
  (ss.find? (fun p => p.1 == id)).map Prod.snd

/-- In-place `self.sessions[session_id]["messages"].append(m)`. -/
def appendMsg (ss : List (String × Session)) (id : String) (m : Msg) :
    List (String × Session) :=
  ss.map (fun p =>
    if p.1 == id then (p.1, { p.2 with messages := p.2.messages ++ [m] }) else p)

/-- The `session_id not in self.sessions` branch of the chat endpoint:
create a session with the current timestamp and no messages. -/
def createIfAbsent (nowFn : Nat → Nat) (st : ServerState) (id : String) : ServerState :=
  if (lookupSession st.sessions id).isSome then st
  else ⟨st.sessions ++ [(id, ⟨nowFn st.clock, []⟩)], st.clock + 1⟩

/-- Append one turn with a fresh `datetime.now()` timestamp. -/
def appendTurn (nowFn : Nat → Nat) (st : ServerState) (id role message : String) :
    ServerState :=
  ⟨appendMsg st.sessions id ⟨role, message, nowFn st.clock⟩, st.clock + 1⟩

/-- `chat_message.session_id or str(uuid.uuid4())`: Python `or` falls
through to the fresh uuid on `None` and on the empty string. -/
def resolveSessionId (sid : Option String) (freshId : String) : String :=
  match sid with
  | none => freshId
  | some s => if s = "" then freshId else s

/-- The response model `ChatResponse` of `server.py`: exactly the fields
`response`, `session_id`, `is_mental_health`, `response_time`,
`timestamp`. -/
structure ChatResponse where
  response : String
  session_id : String
  is_mental_health : Bool
  response_time : Nat
  timestamp : Nat
deriving DecidableEq

/-- The `/chat` endpoint (`chat_endpoint` in `server.py`), success path:
resolve the session id (fresh uuid `freshId` when none supplied), create
the session if absent, append the user turn, call the RAG system
(`gen`), append the assistant turn, and return the `ChatResponse`.
Clock reads, in source order: `time.time()` start, `created_at` (when
creating), user timestamp, assistant timestamp, `time.time()` end, and
the response timestamp. -/
def chatEndpoint (nowFn : Nat → Nat) (gen : String → GenResult) (freshId : String)
    (st : ServerState) (message : String) (sid : Option String) :
    ChatResponse × ServerState :=
  let startTime := nowFn st.clock
  let st0 : ServerState := ⟨st.sessions, st.clock + 1⟩
  let sessionId := resolveSessionId sid freshId
  let st1 := createIfAbsent nowFn st0 sessionId
  let st2 := appendTurn nowFn st1 sessionId "user" message
  let rd := gen message
  let st3 := appendTurn nowFn st2 sessionId "assistant" rd.response
  let responseTime := nowFn st3.clock - startTime
  let st4 : ServerState := ⟨st3.sessions, st3.clock + 1⟩
  ({ response := rd.response
     session_id := sessionId
     is_mental_health := rd.is_mental_health
     response_time := responseTime
     timestamp := nowFn st4.clock },
   ⟨st4.sessions, st4.clock + 1⟩)

/-- Client-visible endpoint failures: the 404 raised by the session
endpoints, carrying the detail text. -/
inductive ApiError where
  | notFound (detail : String)
deriving DecidableEq

/-- `GET /sessions/{session_id}` (`get_session`): 404 when absent, else
the session id together with the stored session data. -/
def getSession (st : ServerState) (id : String) :
    Except ApiError (String × Session) :=
  match lookupSession st.sessions id with
  | none => .error (.notFound ("Session " ++ id ++ " not found"))
  | some s => .ok (id, s)

/-- `DELETE /sessions/{session_id}` (`delete_session`): 404 when absent,
else `del self.sessions[session_id]` and a confirmation message. -/
def deleteSession (st : ServerState) (id : String) :
    Except ApiError (String × ServerState) :=
  if (lookupSession st.sessions id).isSome then
    .ok ("Session " ++ id ++ " deleted successfully",
      { st with sessions := st.sessions.filter (fun p => p.1 != id) })
  else
    .error (.notFound ("Session " ++ id ++ " not found"))

/-- Substring occurrence on character lists: `hasSubstr sub l` is true
iff `sub` occurs contiguously in `l` (the semantics of Python's
`in` on strings). -/
def hasSubstr (sub : List Char) : List Char → Bool
  | [] => List.isPrefixOf sub []
  | c :: cs => List.isPrefixOf sub (c :: cs) || hasSubstr sub cs

/-- String containment, via the underlying character lists. -/
def containsSub (s pat : String) : Bool :=
  hasSubstr pat.data s.data

/-- Modelled from the spec: `ClassificationResult` of the missing
`rag.py` — the in-domain flag, with the crisis/self-harm signal as a
designated sub-case of in-domain.  (Confidence/rationale are optional in
the spec and unused by the claims.) -/
structure Classification where
  is_mental_health : Bool
  is_crisis : Bool
deriving DecidableEq

/-- Modelled from the spec: the designated crisis-resource text (hotline
contact) that must appear in every crisis response; the repository's
sample documents give the hotline as `call/text 988`. -/
def crisisResource : String :=
  "call/text 988 (Suicide & Crisis Lifeline)"

/-- Modelled from the spec: the fixed apology/fallback message returned
when the completion capability errors. -/
def fallbackMessage : String :=
  "I'm sorry, I'm having trouble responding right now. Please try again in a moment."

/-- Modelled from the spec: post-processing of `ResponseGenerator` in the
missing `rag.py` — trim surrounding whitespace and, for crisis queries,
guarantee the crisis-resource text is present, appending it when the
completion omitted it.  (Trimming is applied before the injection so the
appended resource text is kept verbatim; the two steps only interact on
surrounding whitespace.) -/
def postProcess (isCrisis : Bool) (raw : String) : String :=
  let t := raw.trim
  if isCrisis && !(containsSub t crisisResource) then
    t ++ "\n\n" ++ crisisResource
  else t

/-- Modelled from the spec: the snippets fed to prompt assembly — the
classifier runs first and out-of-domain queries skip retrieval. -/
def ragSnippets (classify : String → Classification) (retrieve : String → List String)
    (query : String) : List String :=
  if (classify query).is_mental_health then retrieve query else []

/-- Modelled from the spec: the assembled generation prompt for a query
(ContextAssembler composed over the retrieved snippets). -/
def ragPrompt (classify : String → Classification) (retrieve : String → List String)
    (assemble : String → List String → String) (query : String) : String :=
  assemble query (ragSnippets classify retrieve query)

/-- Modelled from the spec: `MentalHealthRAG.generate_response` of the
missing `rag.py` — classify, retrieve when in-domain, assemble the
prompt, invoke the completion capability, post-process; when the
completion capability errors, return the fixed fallback message instead
of propagating the error, with the classifier's flag untouched. -/
def generateResponse (classify : String → Classification)
    (retrieve : String → List String) (assemble : String → List String → String)
    (complete : String → Except String String) (query : String) : GenResult :=
  let c := classify query
  match complete (ragPrompt classify retrieve assemble query) with
  | .error _ => { response := fallbackMessage, is_mental_health := c.is_mental_health }
  | .ok raw => { response := postProcess c.is_crisis raw, is_mental_health := c.is_mental_health }

/-! Helper lemmas. -/

theorem isPrefixOf_self_append (l r : List Char) : List.isPrefixOf l (l ++ r) = true := by
  induction l with
  | nil => simp
  | cons a as ih => simp [List.isPrefixOf_cons₂, ih]

theorem hasSubstr_self_append (sub r : List Char) : hasSubstr sub (sub ++ r) = true := by
  cases sub with
  | nil =>
    induction r with
    | nil => simp [hasSubstr]
    | cons c cs ih => simp [hasSubstr] at ih ⊢
  | cons a as =>
    simp [hasSubstr, isPrefixOf_self_append]

theorem hasSubstr_append_left (sub x r : List Char) (h : hasSubstr sub r = true) :
    hasSubstr sub (x ++ r) = true := by
  induction x with
  | nil => simpa using h
  | cons c cs ih => simp [hasSubstr, ih]

theorem containsSub_append_self (s pat : String) :
    containsSub (s ++ pat) pat = true := by
  show hasSubstr pat.data (s ++ pat).data = true
  rw [String.data_append]
  exact hasSubstr_append_left pat.data s.data pat.data
    (by simpa using hasSubstr_self_append pat.data [])

theorem lookupSession_append_absent (ss : List (String × Session)) (id : String)
    (s : Session) (h : lookupSession ss id = none) :
    lookupSession (ss ++ [(id, s)]) id = some s := by
  unfold lookupSession at h ⊢
  have hf : ss.find? (fun p => p.1 == id) = none := by
    cases hf : ss.find? (fun p => p.1 == id) with
    | none => rfl
    | some p => rw [hf] at h; simp at h
  rw [List.find?_append, hf]
  simp

theorem lookupSession_appendMsg (ss : List (String × Session)) (id : String) (m : Msg) :
    lookupSession (appendMsg ss id m) id =
      (lookupSession ss id).map (fun s => { s with messages := s.messages ++ [m] }) := by
  induction ss with
  | nil => rfl
  | cons p ps ih =>
    by_cases hp : p.1 = id
    · simp [appendMsg, lookupSession, hp]
    · have hb : (p.1 == id) = false := by simpa using hp
      unfold appendMsg at ih ⊢
      simp only [List.map_cons, hb, if_neg (by simp [hb] : ¬((p.1 == id) = true))]
      unfold lookupSession at ih ⊢
      rw [List.find?_cons_of_neg _ (by simp [hb]), List.find?_cons_of_neg _ (by simp [hb])]
      exact ih

theorem lookupSession_filter_ne (ss : List (String × Session)) (id : String) :
    lookupSession (ss.filter (fun p => p.1 != id)) id = none := by
  unfold lookupSession
  have hf : (ss.filter (fun p => p.1 != id)).find? (fun p => p.1 == id) = none := by
    rw [List.find?_eq_none]
    intro x hx
    have hne := (List.mem_filter.mp hx).2
    simpa using hne
  rw [hf]
  rfl

/-! Claim theorems. -/

/-- Claim C3: an empty or whitespace-only query short-circuits in
`process_message` with the fixed please-provide-input reply, leaves the
agent state untouched, and never invokes the RAG pipeline
(classification, retrieval or generation): the outcome is the same for
any two pipelines. -/
theorem C3_blank_input_short_circuit
    (nowFn : Nat → Nat) (gen gen₂ : String → GenResult) (s : AgentState)
    (input : String) (hblank : isBlank input = true) :
    processMessage nowFn gen s input = (blankInputReply, s) ∧
    processMessage nowFn gen s input = processMessage nowFn gen₂ s input := by
  unfold processMessage
  rw [if_pos hblank, if_pos hblank]
  exact ⟨rfl, rfl⟩

/-- Witness for C3 at a whitespace-only input. -/
theorem C3_blank_input_short_circuit_witness :
    processMessage (fun n => n) (fun _ => ⟨"generated", true⟩)
        ⟨[], none, [], 0⟩ "   "
      = (blankInputReply, ⟨[], none, [], 0⟩) ∧
    processMessage (fun n => n) (fun _ => ⟨"generated", true⟩)
        ⟨[], none, [], 0⟩ "   "
      = processMessage (fun n => n) (fun _ => ⟨"other", false⟩)
        ⟨[], none, [], 0⟩ "   " :=
  C3_blank_input_short_circuit (fun n => n) (fun _ => ⟨"generated", true⟩)
    (fun _ => ⟨"other", false⟩) ⟨[], none, [], 0⟩ "   " (by decide)

/-- Claim C9: blank input to the CLI agent's `process_message` leaves the
conversation history completely unchanged: no user or assistant turn is
appended before the fixed reply is returned. -/
theorem C9_blank_input_history_unchanged
    (nowFn : Nat → Nat) (gen : String → GenResult) (s : AgentState)
    (input : String) (hblank : isBlank input = true) :
    ((processMessage nowFn gen s input).2).conversation_history
      = s.conversation_history := by
  unfold processMessage
  rw [if_pos hblank]

/-- Witness for C9 at the empty input against a non-empty history. -/
theorem C9_blank_input_history_unchanged_witness :
    ((processMessage (fun n => n) (fun _ => ⟨"generated", true⟩)
        ⟨[⟨"user", "hi", 0, none⟩], some "session_1", ["doc"], 1⟩ "").2).conversation_history
      = [⟨"user", "hi", 0, none⟩] :=
  C9_blank_input_history_unchanged (fun n => n) (fun _ => ⟨"generated", true⟩)
    ⟨[⟨"user", "hi", 0, none⟩], some "session_1", ["doc"], 1⟩ "" (by decide)

/-- Claim C10: `clear_history` empties the conversation history and
leaves the current session id and the knowledge store untouched, and no
operation other than `start_new_chat` changes the session id
(`process_message` and `_add_to_history` preserve it, `start_new_chat`
assigns `session_{int(time.time())}`). -/
theorem C10_clear_history_frame
    (nowFn : Nat → Nat) (gen : String → GenResult) (epochTime : Nat)
    (s : AgentState) (role message input : String) :
    (clearHistory s).conversation_history = [] ∧
    (clearHistory s).current_session_id = s.current_session_id ∧
    (clearHistory s).knowledge = s.knowledge ∧
    ((processMessage nowFn gen s input).2).current_session_id = s.current_session_id ∧
    ((processMessage nowFn gen s input).2).knowledge = s.knowledge ∧
    (addToHistory nowFn s role message).current_session_id = s.current_session_id ∧
    (clearHistory s).clock = s.clock ∧
    (startNewChat nowFn epochTime s).current_session_id
      = some ("session_" ++ toString epochTime) := by
  refine ⟨rfl, rfl, rfl, ?_, ?_, rfl, rfl, rfl⟩ <;>
    · unfold processMessage
      by_cases hb : isBlank input = true
      · rw [if_pos hb]
      · rw [if_neg hb]
        rfl

/-- Claim C4 as stated is false at bound `0`: Python's `history[-0:]` is
the whole history, so with `max_history_turns = 0` the context built
from a one-user-turn history includes one turn, not at most zero. -/
theorem C4_context_window_counterexample :
    ¬ ((contextTurns [⟨"user", "hi", 0, none⟩] 0).length ≤ 0) := by decide

/-- Claim C4 (amended to bounds of at least 1): the context includes at
most `maxTurns` turns, all of role user or assistant and none of role
system; the included turns form a suffix of the user/assistant turns of
the history, in their original order; the context text renders each
included turn as `SPEAKER: message` after the header line. -/
theorem C4_context_window_amended (history : List Turn) (maxTurns : Nat)
    (hmax : 1 ≤ maxTurns) :
    (contextTurns history maxTurns).length ≤ maxTurns ∧
    (∀ t ∈ contextTurns history maxTurns, t.role = "user" ∨ t.role = "assistant") ∧
    (∀ t ∈ contextTurns history maxTurns, t.role ≠ "system") ∧
    contextTurns history maxTurns <:+ history.filter userOrAssistant ∧
    (history ≠ [] →
      getConversationContext history maxTurns =
        "Recent conversation context:\n" ++
          String.join ((contextTurns history maxTurns).map renderTurn)) := by
  have hslice : pySliceLast maxTurns history
      = history.drop (history.length - maxTurns) := by
    unfold pySliceLast
    rw [if_neg (by omega)]
  have hroles : ∀ t ∈ contextTurns history maxTurns,
      t.role = "user" ∨ t.role = "assistant" := by
    intro t ht
    have := (List.mem_filter.mp ht).2
    unfold userOrAssistant at this
    rcases Bool.or_eq_true_iff.mp this with h | h
    · exact Or.inl (by simpa using h)
    · exact Or.inr (by simpa using h)
  refine ⟨?_, hroles, ?_, ?_, ?_⟩
  · calc (contextTurns history maxTurns).length
        ≤ (pySliceLast maxTurns history).length := List.length_filter_le _ _
      _ ≤ maxTurns := by rw [hslice, List.length_drop]; omega
  · intro t ht
    rcases hroles t ht with h | h <;> simp [h]
  · unfold contextTurns
    rw [hslice]
    refine ⟨(history.take (history.length - maxTurns)).filter userOrAssistant, ?_⟩
    rw [← List.filter_append, List.take_append_drop]
  · intro hne
    unfold getConversationContext
    rw [if_neg (by simpa using hne)]

/-- Witness for the amended C4 at a four-turn history and bound 2. -/
theorem C4_context_window_amended_witness :
    (contextTurns [⟨"system", "greet", 0, none⟩, ⟨"user", "a", 1, none⟩,
        ⟨"assistant", "b", 2, none⟩, ⟨"user", "c", 3, none⟩] 2).length ≤ 2 ∧
    (∀ t ∈ contextTurns [⟨"system", "greet", 0, none⟩, ⟨"user", "a", 1, none⟩,
        ⟨"assistant", "b", 2, none⟩, ⟨"user", "c", 3, none⟩] 2,
      t.role = "user" ∨ t.role = "assistant") ∧
    (∀ t ∈ contextTurns [⟨"system", "greet", 0, none⟩, ⟨"user", "a", 1, none⟩,
        ⟨"assistant", "b", 2, none⟩, ⟨"user", "c", 3, none⟩] 2,
      t.role ≠ "system") ∧
    contextTurns [⟨"system", "greet", 0, none⟩, ⟨"user", "a", 1, none⟩,
        ⟨"assistant", "b", 2, none⟩, ⟨"user", "c", 3, none⟩] 2
      <:+ List.filter userOrAssistant [⟨"system", "greet", 0, none⟩,
        ⟨"user", "a", 1, none⟩, ⟨"assistant", "b", 2, none⟩, ⟨"user", "c", 3, none⟩] ∧
    ([⟨"system", "greet", 0, none⟩, ⟨"user", "a", 1, none⟩,
        ⟨"assistant", "b", 2, none⟩, ⟨"user", "c", 3, none⟩] ≠ ([] : List Turn) →
      getConversationContext [⟨"system", "greet", 0, none⟩, ⟨"user", "a", 1, none⟩,
          ⟨"assistant", "b", 2, none⟩, ⟨"user", "c", 3, none⟩] 2 =
        "Recent conversation context:\n" ++
          String.join ((contextTurns [⟨"system", "greet", 0, none⟩,
            ⟨"user", "a", 1, none⟩, ⟨"assistant", "b", 2, none⟩,
            ⟨"user", "c", 3, none⟩] 2).map renderTurn)) :=
  C4_context_window_amended
    [⟨"system", "greet", 0, none⟩, ⟨"user", "a", 1, none⟩,
     ⟨"assistant", "b", 2, none⟩, ⟨"user", "c", 3, none⟩] 2 (by decide)

/-- Claim C1: for every query the classifier marks as crisis-related,
the final response of the generation pipeline contains the designated
crisis-resource string, whatever raw completion the model returned. -/
theorem C1_crisis_resource_always_present
    (classify : String → Classification) (retrieve : String → List String)
    (assemble : String → List String → String)
    (complete : String → Except String String) (query raw : String)
    (hok : complete (ragPrompt classify retrieve assemble query) = .ok raw)
    (hcrisis : (classify query).is_crisis = true) :
    containsSub (generateResponse classify retrieve assemble complete query).response
      crisisResource = true := by
  unfold generateResponse
  rw [hok]
  show containsSub (postProcess (classify query).is_crisis raw) crisisResource = true
  unfold postProcess
  cases hc : containsSub raw.trim crisisResource with
  | true => simp [hcrisis, hc]
  | false =>
    have h := containsSub_append_self (raw.trim ++ "\n\n") crisisResource
    simpa [hcrisis, hc] using h

/-- Witness for C1: a crisis query whose completion omits the hotline. -/
theorem C1_crisis_resource_always_present_witness :
    containsSub
      (generateResponse (fun _ => ⟨true, true⟩) (fun _ => [])
        (fun q _ => q) (fun _ => .ok "You matter and help is available.")
        "everything feels hopeless").response
      crisisResource = true :=
  C1_crisis_resource_always_present (fun _ => ⟨true, true⟩) (fun _ => [])
    (fun q _ => q) (fun _ => .ok "You matter and help is available.")
    "everything feels hopeless" "You matter and help is available." rfl rfl

/-- Claim C2: when the completion capability errors, the pipeline still
returns a well-formed result: the response is the fixed non-empty
fallback message, the in-domain flag is the classifier's unaffected
decision, and no error reaches the caller. -/
theorem C2_completion_error_fallback
    (classify : String → Classification) (retrieve : String → List String)
    (assemble : String → List String → String)
    (complete : String → Except String String) (query err : String)
    (herr : complete (ragPrompt classify retrieve assemble query) = .error err) :
    generateResponse classify retrieve assemble complete query
      = { response := fallbackMessage
          is_mental_health := (classify query).is_mental_health } ∧
    fallbackMessage ≠ "" := by
  refine ⟨?_, by decide⟩
  unfold generateResponse
  rw [herr]

/-- Witness for C2: a completion capability that always raises. -/
theorem C2_completion_error_fallback_witness :
    generateResponse (fun _ => ⟨true, false⟩) (fun _ => []) (fun q _ => q)
        (fun _ => .error "connection refused") "I feel sad"
      = { response := fallbackMessage, is_mental_health := true } ∧
    fallbackMessage ≠ "" :=
  C2_completion_error_fallback (fun _ => ⟨true, false⟩) (fun _ => [])
    (fun q _ => q) (fun _ => .error "connection refused")
    "I feel sad" "connection refused" rfl

/-- Claim C6: deleting a session makes a subsequent `get_session` (and a
repeated `delete_session`) fail with the not-found condition, and
`delete_session` on an id that was never created fails with the same
not-found condition. -/
theorem C6_delete_then_get_not_found (st : ServerState) (id : String) :
    (∀ confirmMsg st', deleteSession st id = .ok (confirmMsg, st') →
        getSession st' id = .error (.notFound ("Session " ++ id ++ " not found")) ∧
        deleteSession st' id
          = .error (.notFound ("Session " ++ id ++ " not found"))) ∧
    (lookupSession st.sessions id = none →
        deleteSession st id
          = .error (.notFound ("Session " ++ id ++ " not found"))) := by
  constructor
  · intro confirmMsg st' h
    unfold deleteSession at h
    by_cases hs : (lookupSession st.sessions id).isSome = true
    · rw [if_pos hs] at h
      simp only [Except.ok.injEq, Prod.mk.injEq] at h
      rw [← h.2]
      constructor
      · unfold getSession
        rw [lookupSession_filter_ne]
      · unfold deleteSession
        rw [lookupSession_filter_ne]
        rfl
    · rw [if_neg hs] at h
      cases h
  · intro hnone
    unfold deleteSession
    rw [hnone]
    rfl

/-- Witness for C6: one stored session, deleted, then looked up; and a
delete of an id that never existed. -/
theorem C6_delete_then_get_not_found_witness :
    (getSession ⟨[], 5⟩ "s1"
        = .error (.notFound ("Session " ++ "s1" ++ " not found")) ∧
     deleteSession ⟨[], 5⟩ "s1"
        = .error (.notFound ("Session " ++ "s1" ++ " not found"))) ∧
    deleteSession ⟨[("s1", ⟨0, []⟩)], 5⟩ "s2"
        = .error (.notFound ("Session " ++ "s2" ++ " not found")) :=
  ⟨(C6_delete_then_get_not_found ⟨[("s1", ⟨0, []⟩)], 5⟩ "s1").1
      ("Session " ++ "s1" ++ " deleted successfully") ⟨[], 5⟩ (by rfl),
   (C6_delete_then_get_not_found ⟨[("s1", ⟨0, []⟩)], 5⟩ "s2").2 (by rfl)⟩

theorem chatEndpoint_lookup_fresh
    (nowFn : Nat → Nat) (gen : String → GenResult) (freshId : String)
    (st : ServerState) (message : String) (sid : Option String) (id : String)
    (hres : resolveSessionId sid freshId = id)
    (hfresh : lookupSession st.sessions id = none) :
    lookupSession ((chatEndpoint nowFn gen freshId st message sid).2).sessions id
      = some ⟨nowFn (st.clock + 1),
          [⟨"user", message, nowFn (st.clock + 2)⟩,
           ⟨"assistant", (gen message).response, nowFn (st.clock + 3)⟩]⟩ := by
  unfold chatEndpoint
  rw [hres]
  simp only [createIfAbsent, appendTurn, hfresh, Option.isSome_none,
    Bool.false_eq_true, if_false]
  rw [lookupSession_appendMsg, lookupSession_appendMsg,
    lookupSession_append_absent _ _ _ hfresh]
  rfl

theorem chatEndpoint_lookup_existing
    (nowFn : Nat → Nat) (gen : String → GenResult) (freshId : String)
    (st : ServerState) (message : String) (sid : Option String) (id : String)
    (sess : Session)
    (hres : resolveSessionId sid freshId = id)
    (hex : lookupSession st.sessions id = some sess) :
    lookupSession ((chatEndpoint nowFn gen freshId st message sid).2).sessions id
      = some ⟨sess.created_at,
          sess.messages
            ++ [⟨"user", message, nowFn (st.clock + 1)⟩,
                ⟨"assistant", (gen message).response, nowFn (st.clock + 2)⟩]⟩ := by
  unfold chatEndpoint
  rw [hres]
  simp only [createIfAbsent, appendTurn, hex, Option.isSome_some, if_true]
  rw [lookupSession_appendMsg, lookupSession_appendMsg, hex]
  simp

/-- Claim C5: starting from a fresh session, two sequential chat calls
with non-empty messages in that same session leave the session history
with exactly four turns, two user and two assistant, in call order. -/
theorem C5_two_calls_four_turns
    (nowFn : Nat → Nat) (gen : String → GenResult) (freshId freshId₂ : String)
    (st : ServerState) (id m1 m2 : String)
    (hid : id ≠ "") (hfresh : lookupSession st.sessions id = none)
    (_h1 : m1 ≠ "") (_h2 : m2 ≠ "") :
    ∃ t1 t2 t3 t4,
      (lookupSession
        ((chatEndpoint nowFn gen freshId₂
            ((chatEndpoint nowFn gen freshId st m1 (some id)).2)
            m2 (some id)).2).sessions id).map Session.messages
      = some [⟨"user", m1, t1⟩, ⟨"assistant", (gen m1).response, t2⟩,
              ⟨"user", m2, t3⟩, ⟨"assistant", (gen m2).response, t4⟩] := by
  have hres : resolveSessionId (some id) freshId = id := by
    simp [resolveSessionId, hid]
  have hres₂ : resolveSessionId (some id) freshId₂ = id := by
    simp [resolveSessionId, hid]
  have e1 := chatEndpoint_lookup_fresh nowFn gen freshId st m1 (some id) id
    hres hfresh
  have e2 := chatEndpoint_lookup_existing nowFn gen freshId₂
    ((chatEndpoint nowFn gen freshId st m1 (some id)).2) m2 (some id) id _
    hres₂ e1
  refine ⟨nowFn (st.clock + 2), nowFn (st.clock + 3),
    nowFn (((chatEndpoint nowFn gen freshId st m1 (some id)).2).clock + 1),
    nowFn (((chatEndpoint nowFn gen freshId st m1 (some id)).2).clock + 2), ?_⟩
  rw [e2]
  rfl

/-- Witness for C5 at an initially empty server state. -/
theorem C5_two_calls_four_turns_witness :
    ∃ t1 t2 t3 t4,
      (lookupSession
        ((chatEndpoint (fun n => n) (fun q => ⟨"re: " ++ q, true⟩) "u2"
            ((chatEndpoint (fun n => n) (fun q => ⟨"re: " ++ q, true⟩) "u1"
              ⟨[], 0⟩ "hello" (some "s1")).2)
            "again" (some "s1")).2).sessions "s1").map Session.messages
      = some [⟨"user", "hello", t1⟩, ⟨"assistant", "re: hello", t2⟩,
              ⟨"user", "again", t3⟩, ⟨"assistant", "re: again", t4⟩] :=
  C5_two_calls_four_turns (fun n => n) (fun q => ⟨"re: " ++ q, true⟩)
    "u1" "u2" ⟨[], 0⟩ "s1" "hello" "again"
    (by decide) (by rfl) (by decide) (by decide)

/-- Claim C7: a successful chat call returns a record with exactly the
`ChatResponse` fields, carrying the pipeline's response text and
in-domain flag; when no session id is supplied, the freshly generated id
is returned and a new session holding the two turns of the call is
created under it. -/
theorem C7_response_shape_fresh_session
    (nowFn : Nat → Nat) (gen : String → GenResult) (freshId : String)
    (st : ServerState) (message : String)
    (hfresh : lookupSession st.sessions freshId = none) :
    ∃ rt ts t1 t2 st',
      chatEndpoint nowFn gen freshId st message none
        = ({ response := (gen message).response
             session_id := freshId
             is_mental_health := (gen message).is_mental_health
             response_time := rt
             timestamp := ts }, st') ∧
      lookupSession st'.sessions freshId
        = some ⟨nowFn (st.clock + 1),
            [⟨"user", message, t1⟩,
             ⟨"assistant", (gen message).response, t2⟩]⟩ := by
  have e1 := chatEndpoint_lookup_fresh nowFn gen freshId st message none
    freshId rfl hfresh
  refine ⟨nowFn (st.clock + 4) - nowFn st.clock, nowFn (st.clock + 5),
    nowFn (st.clock + 2), nowFn (st.clock + 3),
    (chatEndpoint nowFn gen freshId st message none).2, ?_, e1⟩
  unfold chatEndpoint
  simp only [resolveSessionId, createIfAbsent, appendTurn, hfresh,
    Option.isSome_none, Bool.false_eq_true, if_false]

/-- Witness for C7: one call with no session id on an empty state. -/
theorem C7_response_shape_fresh_session_witness :
    ∃ rt ts t1 t2 st',
      chatEndpoint (fun n => n) (fun q => ⟨"re: " ++ q, true⟩) "u1"
          ⟨[], 0⟩ "hi" none
        = ({ response := "re: hi"
             session_id := "u1"
             is_mental_health := true
             response_time := rt
             timestamp := ts }, st') ∧
      lookupSession st'.sessions "u1"
        = some ⟨(fun n => n) (0 + 1),
            [⟨"user", "hi", t1⟩, ⟨"assistant", "re: hi", t2⟩]⟩ :=
  C7_response_shape_fresh_session (fun n => n) (fun q => ⟨"re: " ++ q, true⟩)
    "u1" ⟨[], 0⟩ "hi" (by rfl)

/-- Claim C8 as stated is false: the append operations record whatever
`datetime.now()` returns and enforce no strictness, so two appends
within the same clock reading (same microsecond) produce equal
timestamps and the history is not strictly time-ordered. -/
theorem C8_history_order_counterexample :
    ¬ ((addToHistory (fun _ => 0)
          (addToHistory (fun _ => 0) ⟨[], none, [], 0⟩ "user" "hi")
          "assistant" "ok").conversation_history.Pairwise
        (fun a b => a.timestamp < b.timestamp)) := by decide

/-- Claim C8 (amended: non-decreasing instead of strict order): under a
monotone clock whose current reading bounds every recorded timestamp,
an append extends the history by exactly its one new turn at the end
(existing turns are never mutated), the length grows by exactly one, the
timestamps stay in non-decreasing order, and the timestamp bound is
preserved for the next append. -/
theorem C8_history_append_amended
    (nowFn : Nat → Nat) (s : AgentState) (role message : String)
    (hmono : Monotone nowFn)
    (hclock : ∀ t ∈ s.conversation_history, t.timestamp ≤ nowFn s.clock)
    (hsorted : s.conversation_history.Pairwise
      (fun a b => a.timestamp ≤ b.timestamp)) :
    (addToHistory nowFn s role message).conversation_history
      = s.conversation_history
          ++ [⟨role, message, nowFn s.clock, s.current_session_id⟩] ∧
    (addToHistory nowFn s role message).conversation_history.length
      = s.conversation_history.length + 1 ∧
    (addToHistory nowFn s role message).conversation_history.Pairwise
      (fun a b => a.timestamp ≤ b.timestamp) ∧
    (∀ t ∈ (addToHistory nowFn s role message).conversation_history,
      t.timestamp ≤ nowFn ((addToHistory nowFn s role message).clock)) := by
  refine ⟨rfl, by simp [addToHistory], ?_, ?_⟩
  · refine List.pairwise_append.mpr ⟨hsorted, by simp, ?_⟩
    intro a ha b hb
    have hbmem : b = (⟨role, message, nowFn s.clock, s.current_session_id⟩ : Turn) := by
      simpa using hb
    rw [hbmem]
    exact hclock a ha
  · intro t ht
    have hclk : (addToHistory nowFn s role message).clock = s.clock + 1 := rfl
    rw [hclk]
    have hsucc : nowFn s.clock ≤ nowFn (s.clock + 1) := hmono (Nat.le_succ _)
    rcases List.mem_append.mp ht with h | h
    · exact le_trans (hclock t h) hsucc
    · have : t = (⟨role, message, nowFn s.clock, s.current_session_id⟩ : Turn) := by
        simpa using h
      rw [this]
      exact hsucc

/-- Witness for the amended C8: the identity clock on a one-turn history. -/
theorem C8_history_append_amended_witness :
    (addToHistory (fun n => n) ⟨[⟨"user", "hi", 0, none⟩], none, [], 1⟩
        "assistant" "ok").conversation_history
      = [⟨"user", "hi", 0, none⟩] ++ [⟨"assistant", "ok", 1, none⟩] ∧
    (addToHistory (fun n => n) ⟨[⟨"user", "hi", 0, none⟩], none, [], 1⟩
        "assistant" "ok").conversation_history.length
      = ([⟨"user", "hi", 0, none⟩] : List Turn).length + 1 ∧
    (addToHistory (fun n => n) ⟨[⟨"user", "hi", 0, none⟩], none, [], 1⟩
        "assistant" "ok").conversation_history.Pairwise
      (fun a b => a.timestamp ≤ b.timestamp) ∧
    (∀ t ∈ (addToHistory (fun n => n) ⟨[⟨"user", "hi", 0, none⟩], none, [], 1⟩
        "assistant" "ok").conversation_history,
      t.timestamp ≤ (fun n => n)
        ((addToHistory (fun n => n) ⟨[⟨"user", "hi", 0, none⟩], none, [], 1⟩
          "assistant" "ok").clock)) :=
  C8_history_append_amended (fun n => n)
    ⟨[⟨"user", "hi", 0, none⟩], none, [], 1⟩ "assistant" "ok"
    (fun _ _ h => h) (by decide) (by decide)

end MentalHealthBot
